import Mathlib

/-!
Shallow embedding of the pianote real-time piano pipeline
(src/piano.rs, src/synth.rs, src/audio.rs, src/midi.rs) and proofs about
its bank loading, preset enumeration and selection, MIDI routing, and the
audio render step.

External backends (fluidlite, cpal, wmidi, midir) are not part of this
repository; their boundary behaviour is modelled explicitly where a claim
depends on it, each such definition carrying a doc comment that says so.
-/

namespace Pianote

/-! ## Output stream negotiation (src/audio.rs) -/

/-- Sample formats offered by a device configuration (cpal::SampleFormat,
restricted to the formats the negotiation code inspects). -/
inductive SampleFormat where
  | F32
  | I16
  | U16
deriving DecidableEq, Repr

/-- One entry of `device.supported_output_configs()`: a config range with a
channel count, sample format and a sample-rate range
(cpal::SupportedStreamConfigRange). -/
structure SupportedConfig where
  channels : Nat
  sampleFormat : SampleFormat
  minSampleRate : Nat
  maxSampleRate : Nat
deriving DecidableEq, Repr

/-- A concrete stream configuration (cpal::StreamConfig): channel count and
sample rate. `with_max_sample_rate().config()` produces the range's
configuration at `maxSampleRate`. -/
structure StreamConfig where
  channels : Nat
  sampleRate : Nat
deriving DecidableEq, Repr

/-- Embedding of `AudioOutput::get_output_config` (src/audio.rs): iterate the
device's supported configurations in order, return the first with exactly 2
channels and 32-bit float samples, taken at its maximal sample rate; fail
otherwise. -/
def AudioOutput.get_output_config : List SupportedConfig → Except String StreamConfig
  | [] => Except.error "no stereo audio output configuration"
  | c :: rest =>
      if c.channels = 2 ∧ c.sampleFormat = SampleFormat.F32 then
        Except.ok { channels := c.channels, sampleRate := c.maxSampleRate }
      else AudioOutput.get_output_config rest

/-! ## MIDI messages (src/midi.rs: `type MidiMessage = wmidi::MidiMessage`) -/

/-- The wmidi message variants, as matched by `Synth::send_midi_message`
(src/synth.rs): the eight routed variants plus the variants the wildcard
arm swallows. Channel, key, velocity, controller and value fields are
small unsigned integers, embedded as `Nat`. -/
inductive MidiMessage where
  | NoteOff (chan key vel : Nat)
  | NoteOn (chan key vel : Nat)
  | PolyphonicKeyPressure (chan key vel : Nat)
  | ControlChange (chan ctrl val : Nat)
  | ProgramChange (chan prog : Nat)
  | ChannelPressure (chan vel : Nat)
  | PitchBendChange (chan val : Nat)
  | SysEx (data : List Nat)
  | OwnedSysEx (data : List Nat)
  | MidiTimeCode (v : Nat)
  | SongPositionPointer (v : Nat)
  | SongSelect (v : Nat)
  | TuneRequest
  | TimingClock
  | Start
  | Continue
  | Stop
  | ActiveSensing
  | Reset
deriving DecidableEq, Repr

/-! ## SoundFont data and preset enumeration (src/synth.rs, src/piano.rs) -/

/-- A preset object of a loaded soundfont (fluidlite preset handle); the
code only reads its optional display name via `get_name()`. -/
structure PresetInfo where
  name : Option String
deriving DecidableEq, Repr

/-- A loaded soundfont (fluidlite font handle): `get_preset(bank, num)`
returns the preset the bank defines at that pair, if any. -/
structure SFont where
  getPreset : Nat → Nat → Option PresetInfo

/-- `PresetData` (src/piano.rs and src/synth.rs): one descriptor enumerated
from a loaded bank. -/
structure PresetData where
  bank : Nat
  num : Nat
  name : Option String
deriving DecidableEq, Repr

/-- `Preset` (src/piano.rs): an addressable (bank, program) pair. -/
structure Preset where
  bank : Nat
  num : Nat
deriving DecidableEq, Repr

/-- The 128x128 probe shared by `Synth::presets` (src/synth.rs) and
`Piano::load_sfont` (src/piano.rs): iterate all pairs of `0..=127`, keep
those the font defines, reading each preset's optional name. -/
def presetsOf (f : SFont) : List PresetData :=
  (((List.range 128).flatMap fun bank => (List.range 128).map fun num => (bank, num))).filterMap
    fun p => (f.getPreset p.1 p.2).map fun pr => { bank := p.1, num := p.2, name := pr.name }

/-! ## The fluidlite synthesiser state -/

/-- Per-channel program assignment of the backend synthesiser: the selected
soundfont (if any), bank number and program number. -/
structure ChannelState where
  sfont : Option Nat
  bank : Nat
  prog : Nat
deriving DecidableEq, Repr

/-- Modelled from the spec: the backend synthesiser state visible to this
repository — per-channel program assignments and the table of loaded
soundfonts addressed by font id. (fluidlite::Synth internals are not part
of this repository.) -/
structure FS where
  channels : Nat → ChannelState
  fonts : Nat → Option SFont

/-- Modelled from the spec: the backend's `get_program(chan)` returns the
channel's (sfont id, bank, program) triple; channels are 0..15. -/
def fs_get_program (fs : FS) (chan : Nat) : Except String (Nat × Nat × Nat) :=
  if chan < 16 then
    Except.ok ((fs.channels chan).sfont.getD 0, ((fs.channels chan).bank, (fs.channels chan).prog))
  else Except.error "invalid channel"

/-- Modelled from the spec: the backend's `program_select(chan, sfont_id,
bank, num)` assigns the named preset to the channel; it fails, leaving
every channel unchanged, when the font is not loaded or the font does not
define the (bank, num) pair (spec: `UnknownPreset` / `NoActiveBank`). -/
def fs_program_select (fs : FS) (chan sfid bank num : Nat) : Except String FS :=
  if chan < 16 then
    match fs.fonts sfid with
    | none => Except.error "font not found"
    | some f =>
        match f.getPreset bank num with
        | none => Except.error "preset not found"
        | some _ =>
            Except.ok { fs with channels := fun c =>
              (if c = chan then { sfont := some sfid, bank := bank, prog := num }
               else fs.channels c) }
  else Except.error "invalid channel"

/-! ## MIDI routing (src/synth.rs `Synth::send_midi_message`) -/

/-- The backend primitives `Synth::send_midi_message` routes to, plus the
block writer used by the render callbacks. Their behaviour lives in
fluidlite, outside this repository, so they are abstract state
transformers that may fail. -/
structure MidiBackend where
  note_on : Nat → Nat → Nat → FS → Except String FS
  note_off : Nat → Nat → FS → Except String FS
  key_pressure : Nat → Nat → Nat → FS → Except String FS
  cc : Nat → Nat → Nat → FS → Except String FS
  program_change : Nat → Nat → FS → Except String FS
  channel_pressure : Nat → Nat → FS → Except String FS
  pitch_bend : Nat → Nat → FS → Except String FS
  system_reset : FS → Except String FS
  write : Nat → FS → Except String (FS × List Int)

/-- Embedding of `Synth::send_midi_message` (src/synth.rs): route each
message variant to the corresponding backend primitive; the wildcard arm
returns `Ok(())` for every other variant. `NoteOff` discards its velocity,
exactly as the source does. -/
def Synth.send_midi_message (b : MidiBackend) (fs : FS) : MidiMessage → Except String FS
  | MidiMessage.NoteOff chan key _ => b.note_off chan key fs
  | MidiMessage.NoteOn chan key vel => b.note_on chan key vel fs
  | MidiMessage.PolyphonicKeyPressure chan key vel => b.key_pressure chan key vel fs
  | MidiMessage.ControlChange chan ctrl val => b.cc chan ctrl val fs
  | MidiMessage.ProgramChange chan prog => b.program_change chan prog fs
  | MidiMessage.ChannelPressure chan vel => b.channel_pressure chan vel fs
  | MidiMessage.PitchBendChange chan val => b.pitch_bend chan val fs
  | MidiMessage.Reset => b.system_reset fs
  | _ => Except.ok fs

/-! ## The audio render steps (src/piano.rs `Piano::new`, src/audio.rs
`AudioOutput::new`) -/

/-- Trace of the observable engine operations a render step performs:
one `applyMsg` per MIDI message handed to the engine, one `renderBlock`
per block written into the device buffer. -/
inductive TraceEv where
  | applyMsg (m : MidiMessage)
  | renderBlock (frames : Nat)
deriving DecidableEq, Repr

/-- One iteration of the drain loop: apply a message; on failure keep the
previous state and log (both callbacks do
`unwrap_or_else(|err| eprintln!("failed to process MIDI message: ..."))`). -/
def applyLogged (b : MidiBackend) (fs : FS) (m : MidiMessage) : FS × List String :=
  match Synth.send_midi_message b fs m with
  | Except.ok fs2 => (fs2, [])
  | Except.error e => (fs, ["failed to process MIDI message: " ++ e])

/-- The drain loop `for message in rx.try_iter() { ... }` of both render
callbacks, over the snapshot of currently queued messages: apply each in
FIFO order, collecting the operation trace and the logged errors. -/
def drainQueue (b : MidiBackend) (fs : FS) : List MidiMessage → FS × List TraceEv × List String
  | [] => (fs, ([], []))
  | m :: rest =>
      let r := applyLogged b fs m
      let d := drainQueue b r.1 rest
      (d.1, (TraceEv.applyMsg m :: d.2.1, r.2 ++ d.2.2))

/-- How a render step returns control to the audio stream: normally, or by
panicking (an `expect`/`unwrap` firing inside the callback). -/
inductive StepOutcome where
  | completed
  | panicked (msg : String)
deriving DecidableEq, Repr

/-- The full observable result of one render-callback invocation. -/
structure RenderResult where
  outcome : StepOutcome
  fs : FS
  buffer : Option (List Int)
  trace : List TraceEv
  logs : List String

/-- Embedding of the render callback built in `Piano::new` (src/piano.rs):
drain all currently queued messages, then write one block of samples;
a write failure is logged (`"failed to generate samples: ..."`) and the
callback still returns normally. -/
def pianoRenderStep (b : MidiBackend) (q : List MidiMessage) (fs : FS) (frames : Nat) :
    RenderResult :=
  let d := drainQueue b fs q
  match b.write frames d.1 with
  | Except.ok r =>
      { outcome := StepOutcome.completed, fs := r.1, buffer := some r.2,
        trace := d.2.1 ++ [TraceEv.renderBlock frames], logs := d.2.2 }
  | Except.error e =>
      { outcome := StepOutcome.completed, fs := d.1, buffer := none,
        trace := d.2.1 ++ [TraceEv.renderBlock frames],
        logs := d.2.2 ++ ["failed to generate samples: " ++ e] }

/-- Embedding of the render callback built in `AudioOutput::new`
(src/audio.rs): same drain, but the sample write is unwrapped with
`.expect("failed to write samples")`, so a write failure panics. -/
def audioRenderStep (b : MidiBackend) (q : List MidiMessage) (fs : FS) (frames : Nat) :
    RenderResult :=
  let d := drainQueue b fs q
  match b.write frames d.1 with
  | Except.ok r =>
      { outcome := StepOutcome.completed, fs := r.1, buffer := some r.2,
        trace := d.2.1 ++ [TraceEv.renderBlock frames], logs := d.2.2 }
  | Except.error _ =>
      { outcome := StepOutcome.panicked "failed to write samples", fs := d.1, buffer := none,
        trace := d.2.1 ++ [TraceEv.renderBlock frames], logs := d.2.2 }

/-! ## Piano state and bank loading (src/piano.rs) -/

/-- The bank-related fields of `Piano`: the currently active font id and the
enumerated preset descriptors. -/
structure PianoState where
  sfont_id : Option Nat
  presets_data : List PresetData

/-- The bank fields as initialised by `Piano::new`:
`sfont_id: None, presets_data: vec![]`. -/
def Piano.initState : PianoState := { sfont_id := none, presets_data := [] }

/-- Oracle for the backend's fallible soundfont operations during one
`load_sfont` call: whether `sfunload` of the previous font succeeds, and
the result of `sfload(filename)` (a fresh font id and the font's contents,
or an error: file missing, malformed, or rejected by the backend). -/
structure BankOracle where
  unloadOk : Bool
  loadResult : Except String (Nat × SFont)

/-- Modelled from the spec: the backend's `sfunload(id, true)` removes the
font from the loaded table, or fails. -/
def fs_sfunload (o : BankOracle) (fs : FS) (id : Nat) : Except String FS :=
  if o.unloadOk then
    Except.ok { fs with fonts := fun i => if i = id then none else fs.fonts i }
  else Except.error "sfunload failed"

/-- Modelled from the spec: the backend's `sfload(filename, true)` loads the
file and returns a font id under which the font is registered, or fails. -/
def fs_sfload (o : BankOracle) (fs : FS) : Except String (Nat × FS) :=
  match o.loadResult with
  | Except.ok r =>
      Except.ok (r.1, { fs with fonts := fun i => if i = r.1 then some r.2 else fs.fonts i })
  | Except.error e => Except.error e

/-- Outcome of `Piano::load_sfont`: success, an error returned through `?`,
or a panic (the `.unwrap()` on `get_sfont_by_id`). -/
inductive LoadOutcome where
  | ok
  | err (e : String)
  | panicked (msg : String)
deriving DecidableEq, Repr

/-- Second half of `Piano::load_sfont` (src/piano.rs), after the previous
font (if any) has been unloaded: `sfload` the new file, `get_sfont_by_id`
(unwrapped), run the 128x128 preset probe, and only then update
`self.sfont_id` and `self.presets_data`. On an `sfload` error the piano
fields are left exactly as they were at this point. -/
def Piano.load_sfont_after_unload (o : BankOracle) (pst : PianoState) (fs : FS) :
    LoadOutcome × PianoState × FS :=
  match fs_sfload o fs with
  | Except.error e => (LoadOutcome.err e, (pst, fs))
  | Except.ok r =>
      match r.2.fonts r.1 with
      | none => (LoadOutcome.panicked "called Option::unwrap on a None value", (pst, r.2))
      | some f =>
          (LoadOutcome.ok,
            ({ sfont_id := some r.1, presets_data := presetsOf f }, r.2))

/-- Embedding of `Piano::load_sfont` (src/piano.rs): if a font is active,
`sfunload` it (propagating failure with the piano fields untouched) and
clear `self.sfont_id`; then load the new file and rebuild the descriptors.
Note the descriptor list is not cleared on the unload-then-fail path. -/
def Piano.load_sfont (o : BankOracle) (pst : PianoState) (fs : FS) :
    LoadOutcome × PianoState × FS :=
  match pst.sfont_id with
  | some oldId =>
      match fs_sfunload o fs oldId with
      | Except.error e => (LoadOutcome.err e, (pst, fs))
      | Except.ok fs1 =>
          Piano.load_sfont_after_unload o { pst with sfont_id := none } fs1
  | none => Piano.load_sfont_after_unload o pst fs

/-! ## Preset queries (src/piano.rs, src/synth.rs) -/

/-- The `sfont` field of `Synth` (src/synth.rs): the currently loaded and
active font id, if any. -/
structure SynthS where
  sfont : Option Nat

/-- Embedding of `Synth::presets` (src/synth.rs): look the active font up by
id; run the 128x128 probe on it; with no font (or a stale id) return the
empty list. -/
def Synth.presets (fs : FS) (s : SynthS) : List PresetData :=
  match s.sfont.bind fs.fonts with
  | some f => presetsOf f
  | none => []

/-- Embedding of `Piano::get_active_preset` (src/piano.rs): read
`synth.get_program(0)` — channel 0 — and repackage (bank, num). -/
def Piano.get_active_preset (fs : FS) : Except String Preset :=
  match fs_get_program fs 0 with
  | Except.ok r => Except.ok { bank := r.2.1, num := r.2.2 }
  | Except.error e => Except.error e

/-- Embedding of `Piano::set_active_preset` (src/piano.rs): fail with
"no active SoundFont" when `self.sfont_id` is `None`, otherwise call
`synth.program_select(0, sfont_id, preset.bank, preset.num)` — channel 0. -/
def Piano.set_active_preset (pst : PianoState) (fs : FS) (p : Preset) : Except String FS :=
  match pst.sfont_id with
  | none => Except.error "no active SoundFont"
  | some sfid => fs_program_select fs 0 sfid p.bank p.num

/-! ## Input attachment (src/piano.rs `Piano::set_input`) -/

/-- Embedding of `Piano::set_input` (src/piano.rs): run the source's
`connect_input` (here: its result, a fresh connection token); on success
`Option::replace` installs the new token and the returned previous token
is dropped (third component: the tokens dropped by the call). On failure
`?` returns early and the previous input is kept. -/
def Piano.set_input (connectResult : Except String Nat) (inp : Option Nat) :
    Except String Unit × Option Nat × List Nat :=
  match connectResult with
  | Except.error e => (Except.error e, (inp, []))
  | Except.ok tok => (Except.ok (), (some tok, inp.toList))

/-- Modelled from the spec (and the `PianoInput` doc comment "Input must be
disconnected with returned data is dropped"): a source's connection is
live exactly while the piano still holds its token, so the live sources
are the contents of the input slot. -/
def liveTokens (inp : Option Nat) : List Nat := inp.toList

/-! ## Hardware MIDI input (src/midi.rs `MidiInput::connect_queue`) -/

/-- Modelled from the spec: wmidi's `drop_unowned_sysex`, which discards
borrowed system-exclusive messages and keeps everything else. -/
def dropUnownedSysex : MidiMessage → Option MidiMessage
  | MidiMessage.SysEx _ => none
  | m => some m

/-- Embedding of the per-message callback installed by
`MidiInput::connect_queue` (src/midi.rs): parse the raw bytes
(`wmidi::MidiMessage::try_from(data).expect("failed to parse MIDI message")`
— a parse failure panics), drop unowned sysex, and enqueue the rest.
Returns the callback outcome and the queue contents afterwards. -/
def connect_queue_handler (parse : List Nat → Except String MidiMessage)
    (data : List Nat) (q : List MidiMessage) : StepOutcome × List MidiMessage :=
  match parse data with
  | Except.error _ => (StepOutcome.panicked "failed to parse MIDI message", q)
  | Except.ok m =>
      match dropUnownedSysex m with
      | none => (StepOutcome.completed, q)
      | some m2 => (StepOutcome.completed, q ++ [m2])

/-! ## Concrete instances used by counterexamples and witnesses -/

/-- A synthesiser state with default channels and no loaded font. -/
def fs0 : FS :=
  { channels := fun _ => { sfont := none, bank := 0, prog := 0 }, fonts := fun _ => none }

/-- A backend whose primitives all succeed without changing state and whose
writer fills the buffer. -/
def okBackend : MidiBackend where
  note_on := fun _ _ _ fs => Except.ok fs
  note_off := fun _ _ fs => Except.ok fs
  key_pressure := fun _ _ _ fs => Except.ok fs
  cc := fun _ _ _ fs => Except.ok fs
  program_change := fun _ _ fs => Except.ok fs
  channel_pressure := fun _ _ fs => Except.ok fs
  pitch_bend := fun _ _ fs => Except.ok fs
  system_reset := fun fs => Except.ok fs
  write := fun _ fs => Except.ok (fs, [])

/-- Like `okBackend`, but the sample writer fails. -/
def failWriteBackend : MidiBackend :=
  { okBackend with write := fun _ _ => Except.error "write failed" }

/-- A soundfont defining exactly one preset, named "Grand", at bank 0,
program 0. -/
def fontW : SFont :=
  { getPreset := fun b n =>
      if b = 0 ∧ n = 0 then some { name := some "Grand" } else none }

/-- A piano that has bank 1 active, with one enumerated descriptor. -/
def stalePst : PianoState :=
  { sfont_id := some 1, presets_data := [{ bank := 0, num := 0, name := some "Grand" }] }

/-- An oracle for a `load_sfont` call whose unload succeeds but whose
`sfload` fails (missing or malformed file). -/
def failLoadOracle : BankOracle :=
  { unloadOk := true, loadResult := Except.error "failed to load SoundFont file" }

/-- An oracle for a successful `load_sfont` call registering `fontW` under
font id 2. -/
def loadOracleW : BankOracle :=
  { unloadOk := true, loadResult := Except.ok (2, fontW) }

/-- A piano with `fontW` active under font id 2 and its descriptors
enumerated. -/
def pstW : PianoState := { sfont_id := some 2, presets_data := presetsOf fontW }

/-- A synthesiser state holding `fontW` under font id 2. -/
def fsW : FS :=
  { channels := fun _ => { sfont := none, bank := 0, prog := 0 },
    fonts := fun i => if i = 2 then some fontW else none }

/-- `fsW` after preset (0, 0) of font 2 is selected on channel 0. -/
def fs2W : FS :=
  { channels := fun c =>
      (if c = 0 then { sfont := some 2, bank := 0, prog := 0 } else fsW.channels c),
    fonts := fsW.fonts }

/-- The synthesiser state a control caller observes after a fallible call:
the new state on success, the unchanged old state on error. -/
def applyOr (fs : FS) (r : Except String FS) : FS :=
  match r with
  | Except.ok fs2 => fs2
  | Except.error _ => fs

/-! ## Helper lemmas -/

/-- Membership in the 128x128 probe result: a descriptor is enumerated iff
its pair is inside the probed grid and the font defines a preset with that
name there. -/
theorem mem_presetsOf (f : SFont) (b n : Nat) (nm : Option String) :
    ({ bank := b, num := n, name := nm } : PresetData) ∈ presetsOf f ↔
      b < 128 ∧ n < 128 ∧ f.getPreset b n = some { name := nm } := by
  unfold presetsOf
  simp only [List.mem_filterMap, List.mem_flatMap, List.mem_map, List.mem_range,
    Option.map_eq_some']
  constructor
  · rintro ⟨a, ⟨bb, hbb, nn, hnn, hpair⟩, pr, hpre, heq⟩
    subst hpair
    injection heq with h1 h2 h3
    subst h1
    subst h2
    subst h3
    exact ⟨hbb, hnn, hpre⟩
  · rintro ⟨hb, hn, hpre⟩
    exact ⟨(b, n), ⟨b, hb, n, hn, rfl⟩, { name := nm }, hpre, rfl⟩

/-- The drain loop computes the left fold of message application over the
queue, in queue (FIFO) order. -/
theorem drainQueue_fst (b : MidiBackend) (fs : FS) (q : List MidiMessage) :
    (drainQueue b fs q).1 = q.foldl (fun s m => (applyLogged b s m).1) fs := by
  induction q generalizing fs with
  | nil => rfl
  | cons m rest ih => simp [drainQueue, ih]

/-- The drain loop's trace is one apply event per queued message, in queue
order. -/
theorem drainQueue_trace (b : MidiBackend) (fs : FS) (q : List MidiMessage) :
    (drainQueue b fs q).2.1 = q.map TraceEv.applyMsg := by
  induction q generalizing fs with
  | nil => rfl
  | cons m rest ih => simp [drainQueue, ih]

/-! ## Claim theorems -/

/-- Claim C4: every invocation of the audio render step (both the one built
in `Piano::new` and the one built in `AudioOutput::new`) first applies all
currently queued commands to the engine in FIFO order — the drained state
is the left fold of message application over the queue snapshot — and only
then renders exactly one block of samples into the device buffer: the
operation trace is the queued messages in order followed by a single
render event, and the rendered buffer comes from the fully drained
state. -/
theorem C4_render_step_order (b : MidiBackend) (q : List MidiMessage) (fs : FS) (n : Nat) :
    (pianoRenderStep b q fs n).trace = q.map TraceEv.applyMsg ++ [TraceEv.renderBlock n]
  ∧ (audioRenderStep b q fs n).trace = q.map TraceEv.applyMsg ++ [TraceEv.renderBlock n]
  ∧ (drainQueue b fs q).1 = q.foldl (fun s m => (applyLogged b s m).1) fs
  ∧ (pianoRenderStep b q fs n).buffer =
      (b.write n (q.foldl (fun s m => (applyLogged b s m).1) fs)).toOption.map Prod.snd := by
  refine ⟨?_, ?_, drainQueue_fst b fs q, ?_⟩ <;>
    cases hw : b.write n (drainQueue b fs q).1 <;>
      simp [pianoRenderStep, audioRenderStep, hw, drainQueue_trace, ← drainQueue_fst,
        Except.toOption]

/-- Claim C5: `Synth::send_midi_message` routes each message variant to the
corresponding engine primitive — note on, note off (velocity discarded),
key pressure, control change, program change, channel pressure, pitch
bend, system reset — and every other (unsupported) variant is silently
ignored: the call returns success and the engine state is unchanged. -/
theorem C5_event_routing :
    (∀ (b : MidiBackend) (fs : FS) (c k v : Nat),
        Synth.send_midi_message b fs (MidiMessage.NoteOn c k v) = b.note_on c k v fs)
  ∧ (∀ (b : MidiBackend) (fs : FS) (c k v : Nat),
        Synth.send_midi_message b fs (MidiMessage.NoteOff c k v) = b.note_off c k fs)
  ∧ (∀ (b : MidiBackend) (fs : FS) (c k v : Nat),
        Synth.send_midi_message b fs (MidiMessage.PolyphonicKeyPressure c k v) =
          b.key_pressure c k v fs)
  ∧ (∀ (b : MidiBackend) (fs : FS) (c k v : Nat),
        Synth.send_midi_message b fs (MidiMessage.ControlChange c k v) = b.cc c k v fs)
  ∧ (∀ (b : MidiBackend) (fs : FS) (c p : Nat),
        Synth.send_midi_message b fs (MidiMessage.ProgramChange c p) = b.program_change c p fs)
  ∧ (∀ (b : MidiBackend) (fs : FS) (c v : Nat),
        Synth.send_midi_message b fs (MidiMessage.ChannelPressure c v) =
          b.channel_pressure c v fs)
  ∧ (∀ (b : MidiBackend) (fs : FS) (c v : Nat),
        Synth.send_midi_message b fs (MidiMessage.PitchBendChange c v) = b.pitch_bend c v fs)
  ∧ (∀ (b : MidiBackend) (fs : FS),
        Synth.send_midi_message b fs MidiMessage.Reset = b.system_reset fs)
  ∧ (∀ (b : MidiBackend) (fs : FS) (d : List Nat),
        Synth.send_midi_message b fs (MidiMessage.SysEx d) = Except.ok fs)
  ∧ (∀ (b : MidiBackend) (fs : FS) (d : List Nat),
        Synth.send_midi_message b fs (MidiMessage.OwnedSysEx d) = Except.ok fs)
  ∧ (∀ (b : MidiBackend) (fs : FS) (v : Nat),
        Synth.send_midi_message b fs (MidiMessage.MidiTimeCode v) = Except.ok fs)
  ∧ (∀ (b : MidiBackend) (fs : FS) (v : Nat),
        Synth.send_midi_message b fs (MidiMessage.SongPositionPointer v) = Except.ok fs)
  ∧ (∀ (b : MidiBackend) (fs : FS) (v : Nat),
        Synth.send_midi_message b fs (MidiMessage.SongSelect v) = Except.ok fs)
  ∧ (∀ (b : MidiBackend) (fs : FS),
        Synth.send_midi_message b fs MidiMessage.TuneRequest = Except.ok fs)
  ∧ (∀ (b : MidiBackend) (fs : FS),
        Synth.send_midi_message b fs MidiMessage.TimingClock = Except.ok fs)
  ∧ (∀ (b : MidiBackend) (fs : FS),
        Synth.send_midi_message b fs MidiMessage.Start = Except.ok fs)
  ∧ (∀ (b : MidiBackend) (fs : FS),
        Synth.send_midi_message b fs MidiMessage.Continue = Except.ok fs)
  ∧ (∀ (b : MidiBackend) (fs : FS),
        Synth.send_midi_message b fs MidiMessage.Stop = Except.ok fs)
  ∧ (∀ (b : MidiBackend) (fs : FS),
        Synth.send_midi_message b fs MidiMessage.ActiveSensing = Except.ok fs) := by
  refine ⟨?_, ?_, ?_, ?_, ?_, ?_, ?_, ?_, ?_, ?_, ?_, ?_, ?_, ?_, ?_, ?_, ?_, ?_, ?_⟩ <;>
    intros <;> rfl

/-- Claim C6: `AudioOutput::get_output_config` returns the first
device-supported configuration with exactly 2 channels and 32-bit float
samples, taken at its highest offered sample rate, and fails with the
no-suitable-configuration error when no supported configuration
matches. -/
theorem C6_output_config :
    (∀ configs : List SupportedConfig,
        (∀ c ∈ configs, ¬(c.channels = 2 ∧ c.sampleFormat = SampleFormat.F32)) →
        AudioOutput.get_output_config configs =
          Except.error "no stereo audio output configuration")
  ∧ (∀ (pre : List SupportedConfig) (c : SupportedConfig) (post : List SupportedConfig),
        (∀ c2 ∈ pre, ¬(c2.channels = 2 ∧ c2.sampleFormat = SampleFormat.F32)) →
        c.channels = 2 → c.sampleFormat = SampleFormat.F32 →
        AudioOutput.get_output_config (pre ++ c :: post) =
          Except.ok { channels := 2, sampleRate := c.maxSampleRate }) := by
  constructor
  · intro configs h
    induction configs with
    | nil => rfl
    | cons c rest ih =>
        rw [AudioOutput.get_output_config, if_neg (h c (List.mem_cons_self ..))]
        exact ih fun c2 hc2 => h c2 (List.mem_cons_of_mem _ hc2)
  · intro pre c post h hc hf
    induction pre with
    | nil =>
        rw [List.nil_append, AudioOutput.get_output_config, if_pos ⟨hc, hf⟩, hc]
    | cons c2 rest ih =>
        rw [List.cons_append, AudioOutput.get_output_config,
          if_neg (h c2 (List.mem_cons_self ..))]
        exact ih fun c3 hc3 => h c3 (List.mem_cons_of_mem _ hc3)

/-- Witness for C6: a device offering a mono config then a stereo float
config range up to 48000 Hz negotiates the stereo config at 48000 Hz; a
device offering only the mono config fails. -/
theorem C6_output_config_witness :
    AudioOutput.get_output_config
      [{ channels := 1, sampleFormat := SampleFormat.I16, minSampleRate := 8000,
         maxSampleRate := 44100 }] =
      Except.error "no stereo audio output configuration"
  ∧ AudioOutput.get_output_config
      ([{ channels := 1, sampleFormat := SampleFormat.I16, minSampleRate := 8000,
          maxSampleRate := 44100 }] ++
        { channels := 2, sampleFormat := SampleFormat.F32, minSampleRate := 44100,
          maxSampleRate := 48000 } :: []) =
      Except.ok { channels := 2, sampleRate := 48000 } :=
  ⟨C6_output_config.1 _ (by decide), C6_output_config.2 _ _ [] (by decide) rfl rfl⟩

/-- Claim C9: `Piano::set_input`, on a successful connect, installs the new
input token and drops exactly the previously held token (if any); the live
input slot holds at most one token, and after a replacement the old
source's token is no longer live, so its events no longer reach the
engine. -/
theorem C9_set_input_replaces :
    (∀ (tok : Nat) (inp : Option Nat),
        Piano.set_input (Except.ok tok) inp = (Except.ok (), (some tok, inp.toList)))
  ∧ (∀ inp : Option Nat, (liveTokens inp).length ≤ 1)
  ∧ (∀ old tok : Nat, old ≠ tok →
        old ∈ (Piano.set_input (Except.ok tok) (some old)).2.2 ∧
        old ∉ liveTokens (Piano.set_input (Except.ok tok) (some old)).2.1) := by
  refine ⟨fun tok inp => rfl, fun inp => ?_, fun old tok h => ⟨?_, ?_⟩⟩
  · cases inp <;> simp [liveTokens]
  · simp [Piano.set_input, Option.toList]
  · simpa [Piano.set_input, liveTokens, Option.toList] using h

/-- Witness for C9: replacing input token 1 by token 2 drops token 1 and
leaves it outside the live set. -/
theorem C9_set_input_replaces_witness :
    1 ∈ (Piano.set_input (Except.ok 2) (some 1)).2.2 ∧
    1 ∉ liveTokens (Piano.set_input (Except.ok 2) (some 1)).2.1 :=
  C9_set_input_replaces.2.2 1 2 (by decide)

/-- Claim C1 counterexample: a bank-load call on a piano with an active bank
whose unload succeeds but whose `sfload` fails (file missing) ends with
the active font id cleared but the preset descriptor set still holding the
entries enumerated for the previously unloaded bank — a partially loaded
state, contradicting the claim that no descriptor ever references an
unloaded bank. -/
theorem C1_counterexample :
    (Piano.load_sfont failLoadOracle stalePst fs0).1 =
      LoadOutcome.err "failed to load SoundFont file"
  ∧ (Piano.load_sfont failLoadOracle stalePst fs0).2.1.sfont_id = none
  ∧ (Piano.load_sfont failLoadOracle stalePst fs0).2.1.presets_data =
      [{ bank := 0, num := 0, name := some "Grand" }]
  ∧ (Piano.load_sfont failLoadOracle stalePst fs0).2.1.presets_data ≠ [] :=
  ⟨rfl, rfl, rfl, by decide⟩

/-- Claim C1 (amended): on every failed `Piano::load_sfont` call the preset
descriptor set is left exactly as it was before the call — it is never
partially rebuilt, but stale entries from a previously unloaded bank do
survive — and the active font id is either cleared (the unload of the
previous bank succeeded before the failure, or no bank was loaded) or
unchanged (the unload itself failed). -/
theorem C1_amended (o : BankOracle) (pst : PianoState) (fs : FS)
    (h : (Piano.load_sfont o pst fs).1 ≠ LoadOutcome.ok) :
    (Piano.load_sfont o pst fs).2.1.presets_data = pst.presets_data ∧
    ((Piano.load_sfont o pst fs).2.1.sfont_id = none ∨
     (Piano.load_sfont o pst fs).2.1.sfont_id = pst.sfont_id) := by
  cases hsf : pst.sfont_id with
  | none =>
      cases ho : o.loadResult with
      | error e =>
          simp [Piano.load_sfont, Piano.load_sfont_after_unload, fs_sfload, hsf, ho]
      | ok r =>
          exfalso
          apply h
          simp [Piano.load_sfont, Piano.load_sfont_after_unload, fs_sfload, hsf, ho]
  | some oldId =>
      cases hu : o.unloadOk with
      | false =>
          simp [Piano.load_sfont, fs_sfunload, hsf, hu]
      | true =>
          cases ho : o.loadResult with
          | error e =>
              simp [Piano.load_sfont, Piano.load_sfont_after_unload, fs_sfload, fs_sfunload,
                hsf, hu, ho]
          | ok r =>
              exfalso
              apply h
              simp [Piano.load_sfont, Piano.load_sfont_after_unload, fs_sfload, fs_sfunload,
                hsf, hu, ho]

/-- Witness for C1 (amended): the concrete failing load of
`C1_counterexample` keeps the old descriptors and clears the font id. -/
theorem C1_amended_witness :
    (Piano.load_sfont failLoadOracle stalePst fs0).2.1.presets_data =
      stalePst.presets_data ∧
    ((Piano.load_sfont failLoadOracle stalePst fs0).2.1.sfont_id = none ∨
     (Piano.load_sfont failLoadOracle stalePst fs0).2.1.sfont_id = stalePst.sfont_id) :=
  C1_amended failLoadOracle stalePst fs0 (by decide)

/-- Claim C2: the preset enumeration probes the whole 128x128 grid and
yields exactly the (bank, program) pairs the loaded bank defines, each
with its optional name; a successful `Piano::load_sfont` replaces the
descriptor set with exactly the new bank's enumeration (independently of
any previously loaded bank, so no stale entries remain) and installs the
new font id; with no bank loaded the enumeration is empty, as is a fresh
piano's descriptor set. -/
theorem C2_presets_roundtrip :
    (∀ (f : SFont) (b n : Nat) (nm : Option String),
        ({ bank := b, num := n, name := nm } : PresetData) ∈ presetsOf f ↔
          b < 128 ∧ n < 128 ∧ f.getPreset b n = some { name := nm })
  ∧ (∀ (o : BankOracle) (pst : PianoState) (fs : FS) (id : Nat) (f : SFont),
        o.loadResult = Except.ok (id, f) →
        (Piano.load_sfont o pst fs).1 = LoadOutcome.ok →
        (Piano.load_sfont o pst fs).2.1.presets_data = presetsOf f ∧
        (Piano.load_sfont o pst fs).2.1.sfont_id = some id)
  ∧ (∀ fs : FS, Synth.presets fs { sfont := none } = [])
  ∧ Piano.initState.presets_data = [] := by
  refine ⟨mem_presetsOf, ?_, fun fs => rfl, rfl⟩
  intro o pst fs id f ho hok
  cases hsf : pst.sfont_id with
  | none =>
      simp [Piano.load_sfont, Piano.load_sfont_after_unload, fs_sfload, hsf, ho]
  | some oldId =>
      cases hu : o.unloadOk with
      | false =>
          exact absurd hok (by simp [Piano.load_sfont, fs_sfunload, hsf, hu])
      | true =>
          simp [Piano.load_sfont, Piano.load_sfont_after_unload, fs_sfload, fs_sfunload,
            hsf, hu, ho]

/-- Witness for C2: loading `fontW` (one preset, "Grand" at (0,0)) over the
stale piano state replaces the descriptors with exactly `fontW`'s
enumeration under font id 2, and (0, 0, "Grand") is enumerated. -/
theorem C2_presets_roundtrip_witness :
    ({ bank := 0, num := 0, name := some "Grand" } : PresetData) ∈ presetsOf fontW
  ∧ (Piano.load_sfont loadOracleW stalePst fs0).2.1.presets_data = presetsOf fontW
  ∧ (Piano.load_sfont loadOracleW stalePst fs0).2.1.sfont_id = some 2 :=
  ⟨(C2_presets_roundtrip.1 fontW 0 0 (some "Grand")).mpr ⟨by decide, by decide, rfl⟩,
   (C2_presets_roundtrip.2.1 loadOracleW stalePst fs0 2 fontW rfl rfl).1,
   (C2_presets_roundtrip.2.1 loadOracleW stalePst fs0 2 fontW rfl rfl).2⟩

/-- Claim C3: selecting the active preset with no bank loaded fails with the
"no active SoundFont" (NoActiveBank) error; selecting a (bank, program)
pair inside the probed grid that is absent from the current descriptor set
fails with the unknown-preset error; in both cases the synthesiser state a
caller observes is unchanged, so the previously active preset is kept. -/
theorem C3_select_preset_errors :
    (∀ (pst : PianoState) (fs : FS) (p : Preset), pst.sfont_id = none →
        Piano.set_active_preset pst fs p = Except.error "no active SoundFont" ∧
        applyOr fs (Piano.set_active_preset pst fs p) = fs)
  ∧ (∀ (pst : PianoState) (fs : FS) (p : Preset) (sfid : Nat) (f : SFont),
        pst.sfont_id = some sfid → fs.fonts sfid = some f →
        pst.presets_data = presetsOf f → p.bank < 128 → p.num < 128 →
        (∀ nm : Option String,
          ({ bank := p.bank, num := p.num, name := nm } : PresetData) ∉ pst.presets_data) →
        Piano.set_active_preset pst fs p = Except.error "preset not found" ∧
        applyOr fs (Piano.set_active_preset pst fs p) = fs) := by
  constructor
  · intro pst fs p h
    constructor <;> simp [Piano.set_active_preset, applyOr, h]
  · intro pst fs p sfid f hsf hfont hpd hb hn habs
    have hnone : f.getPreset p.bank p.num = none := by
      cases hp : f.getPreset p.bank p.num with
      | none => rfl
      | some pr =>
          exact absurd (hpd ▸ (mem_presetsOf f p.bank p.num pr.name).mpr ⟨hb, hn, hp⟩)
            (habs pr.name)
    constructor <;>
      simp [Piano.set_active_preset, fs_program_select, applyOr, hsf, hfont, hnone]

/-- Witness for C3: a fresh piano rejects any selection with "no active
SoundFont"; the piano holding `fontW` (which defines only (0,0)) rejects
selecting (5,7) with "preset not found". -/
theorem C3_select_preset_errors_witness :
    Piano.set_active_preset Piano.initState fsW { bank := 0, num := 0 } =
      Except.error "no active SoundFont"
  ∧ Piano.set_active_preset pstW fsW { bank := 5, num := 7 } =
      Except.error "preset not found" :=
  ⟨(C3_select_preset_errors.1 Piano.initState fsW { bank := 0, num := 0 } rfl).1,
   (C3_select_preset_errors.2 pstW fsW { bank := 5, num := 7 } 2 fontW rfl rfl rfl
      (by decide) (by decide)
      (fun nm h => by
        have h3 := ((mem_presetsOf fontW 5 7 nm).mp h).2.2
        simp [fontW] at h3)).1⟩

/-- Claim C7 counterexample: in the render callback built in
`AudioOutput::new` a sample-write failure is not caught — the
`.expect("failed to write samples")` panics, so the render step does not
return normally and the failure terminates the stream instead of being
logged. -/
theorem C7_counterexample :
    (audioRenderStep failWriteBackend [] fs0 64).outcome =
      StepOutcome.panicked "failed to write samples"
  ∧ (audioRenderStep failWriteBackend [] fs0 64).outcome ≠ StepOutcome.completed :=
  ⟨rfl, by decide⟩

/-- Claim C7 (amended): event-apply failures are caught and logged by both
render callbacks, and the callback built in `Piano::new` also catches and
logs sample-write failures, always returning normally; but the callback
built in `AudioOutput::new` returns normally only when the sample write on
the drained state succeeds — a write failure makes it panic. -/
theorem C7_amended (b : MidiBackend) (q : List MidiMessage) (fs : FS) (n : Nat) :
    (pianoRenderStep b q fs n).outcome = StepOutcome.completed
  ∧ ((audioRenderStep b q fs n).outcome = StepOutcome.completed ↔
      ∃ r, b.write n ((drainQueue b fs q).1) = Except.ok r) := by
  cases hw : b.write n ((drainQueue b fs q).1) <;>
    simp [pianoRenderStep, audioRenderStep, hw]

/-- Claim C8 counterexample: a raw byte sequence the parser rejects makes
the callback installed by `MidiInput::connect_queue` panic (the parse
result is unwrapped with `.expect("failed to parse MIDI message")`) —
the message is not dropped with a logged warning, and the failure does
propagate out of the callback. -/
theorem C8_counterexample :
    (connect_queue_handler (fun _ => Except.error "invalid data") [255] []).1 =
      StepOutcome.panicked "failed to parse MIDI message"
  ∧ (connect_queue_handler (fun _ => Except.error "invalid data") [255] []).1 ≠
      StepOutcome.completed :=
  ⟨rfl, by decide⟩

/-- Claim C8 (amended): a raw byte sequence that fails to parse makes the
hardware MIDI input callback panic with "failed to parse MIDI message",
leaving the queue untouched; a parsed unowned system-exclusive message is
dropped silently; every other parsed message is appended to the queue, the
callback completing normally in both parsed cases. -/
theorem C8_amended :
    (∀ (parse : List Nat → Except String MidiMessage) (data : List Nat)
        (q : List MidiMessage) (e : String),
        parse data = Except.error e →
        connect_queue_handler parse data q =
          (StepOutcome.panicked "failed to parse MIDI message", q))
  ∧ (∀ (parse : List Nat → Except String MidiMessage) (data : List Nat)
        (q : List MidiMessage) (d : List Nat),
        parse data = Except.ok (MidiMessage.SysEx d) →
        connect_queue_handler parse data q = (StepOutcome.completed, q))
  ∧ (∀ (parse : List Nat → Except String MidiMessage) (data : List Nat)
        (q : List MidiMessage) (m : MidiMessage),
        parse data = Except.ok m → dropUnownedSysex m = some m →
        connect_queue_handler parse data q = (StepOutcome.completed, q ++ [m])) := by
  refine ⟨?_, ?_, ?_⟩ <;> intro parse data q x h
  · simp [connect_queue_handler, h]
  · simp [connect_queue_handler, h, dropUnownedSysex]
  · intro hd
    simp [connect_queue_handler, h, hd]

/-- Witness for C8 (amended): a rejected byte sequence panics the callback;
a parsed unowned sysex is dropped; a parsed note-on is enqueued. -/
theorem C8_amended_witness :
    connect_queue_handler (fun _ => Except.error "invalid data") [255] [] =
      (StepOutcome.panicked "failed to parse MIDI message", [])
  ∧ connect_queue_handler (fun _ => Except.ok (MidiMessage.SysEx [1, 2])) [240, 1, 2] [] =
      (StepOutcome.completed, [])
  ∧ connect_queue_handler (fun _ => Except.ok (MidiMessage.NoteOn 0 60 100)) [144, 60, 100]
      [] = (StepOutcome.completed, [MidiMessage.NoteOn 0 60 100]) :=
  ⟨C8_amended.1 _ [255] [] "invalid data" rfl,
   C8_amended.2.1 _ [240, 1, 2] [] [1, 2] rfl,
   C8_amended.2.2 _ [144, 60, 100] [] (MidiMessage.NoteOn 0 60 100) rfl rfl⟩

/-- Claim C10: `Piano::get_active_preset` reads the program of MIDI channel
0 only, and a successful `Piano::set_active_preset` selects the given
preset on channel 0 under the active font id while leaving the preset
assignment of every other channel unchanged. -/
theorem C10_channel_zero :
    (∀ fs : FS, Piano.get_active_preset fs =
        Except.ok { bank := (fs.channels 0).bank, num := (fs.channels 0).prog })
  ∧ (∀ (pst : PianoState) (fs : FS) (p : Preset) (sfid : Nat) (fs2 : FS),
        pst.sfont_id = some sfid →
        Piano.set_active_preset pst fs p = Except.ok fs2 →
        fs2.channels 0 = { sfont := some sfid, bank := p.bank, prog := p.num } ∧
        ∀ c : Nat, c ≠ 0 → fs2.channels c = fs.channels c) := by
  constructor
  · intro fs
    simp [Piano.get_active_preset, fs_get_program]
  · intro pst fs p sfid fs2 hsf hok
    simp only [Piano.set_active_preset, hsf] at hok
    rw [fs_program_select, if_pos (by norm_num : (0 : Nat) < 16)] at hok
    cases hf : fs.fonts sfid with
    | none => simp [hf] at hok
    | some f =>
        simp only [hf] at hok
        cases hp : f.getPreset p.bank p.num with
        | none => simp [hp] at hok
        | some pr =>
            simp only [hp] at hok
            injection hok with h2
            subst h2
            refine ⟨by simp, fun c hc => by simp [hc]⟩

/-- Witness for C10: on the concrete piano holding `fontW` under font id 2,
reading the active preset reads channel 0, and selecting (0, 0) updates
channel 0 to font 2's (0, 0) while channel 3 keeps its assignment. -/
theorem C10_channel_zero_witness :
    Piano.get_active_preset fsW = Except.ok { bank := 0, num := 0 }
  ∧ fs2W.channels 0 = { sfont := some 2, bank := 0, prog := 0 }
  ∧ fs2W.channels 3 = fsW.channels 3 :=
  ⟨C10_channel_zero.1 fsW,
   (C10_channel_zero.2 pstW fsW { bank := 0, num := 0 } 2 fs2W rfl rfl).1,
   (C10_channel_zero.2 pstW fsW { bank := 0, num := 0 } 2 fs2W rfl rfl).2 3 (by decide)⟩

end Pianote
